import Mathlib

/-!
Verification of the ChromaRecall game engine.

The embedding below translates the game-engine logic of the repository:

* `calculateDifficulty` from the earlier component revision that defines it
  locally, a function of the level and a performance rating;
* the scoring and classification logic of `handleColorSelect` in
  `src/components/color-memory-game.tsx`, together with the surrounding
  state updates (`endGame`, `handleGameEnd`, and the `useColorSelection`
  wrapper with its processing-flag guard);
* the option-rendering computation of the component
  (`options.slice(0, Math.min(6, options.length))`).

JavaScript numbers are embedded as rationals (`ℚ`); `Math.round` becomes
`jsRound` (floor of `x + 1/2`, which matches JavaScript rounding), and
`Math.floor` of a non-negative integer quotient becomes `Nat` division.
The color-distance collaborator (`calculateColorDifference`) and the
color-pool collaborator (`generateGameColors`) live in `lib/color-utils`,
a file that is not among the sources; following the specification they are
treated as injected collaborators: a distance function
`dist : String → String → ℚ` and a generator
`gen : ℕ → Option (String × List String)` whose `none` result stands for
the generation failure path (`generateColors` throwing).
-/

namespace ChromaRecall

/-- JavaScript `Math.round`: round half toward positive infinity,
i.e. `⌊x + 1/2⌋`. -/
def jsRound (x : ℚ) : ℤ := ⌊x + 1/2⌋

/-- Result record of `calculateDifficulty`.  The source returns
`{ colorCount, similarity, viewTime, selectionTime }`. -/
structure Difficulty where
  colorCount : ℕ
  similarity : ℚ
  viewTime : ℚ
  selectionTime : ℚ
deriving Repr, DecidableEq

/-- The four-band similarity ramp of `calculateDifficulty`, before the
`Math.min(0.99, similarity * performanceRating)` step. -/
def similarityBase (level : ℕ) : ℚ :=
  if level ≤ 10 then 7/10 + (level : ℚ) * (1/100)
  else if level ≤ 30 then 8/10 + ((level : ℚ) - 10) * (5/1000)
  else if level ≤ 50 then 9/10 + ((level : ℚ) - 30) * (3/1000)
  else 96/100 + ((level : ℚ) - 50) * (5/10000)

/-- The selection-time part of `calculateDifficulty`, before the
`Math.max(2, Math.round(selectionTime / performanceRating))` step. -/
def selectionTimeBase (level : ℕ) : ℚ :=
  if level ≤ 10 then 15
  else if level ≤ 80 then max 2 (15 - (((level - 10) / 5 : ℕ) : ℚ))
  else 2

/-- `calculateDifficulty(level, performanceRating)` from the component
revision that defines it locally. -/
def calculateDifficulty (level : ℕ) (performanceRating : ℚ) : Difficulty :=
  { colorCount := min 10 (3 + level / 10)
    similarity := min (99/100) (similarityBase level * performanceRating)
    viewTime := 3
    selectionTime := max 2 ((jsRound (selectionTimeBase level / performanceRating) : ℚ)) }

/-- Modelled from the spec: the current component imports a one-argument
`calculateDifficulty` from `lib/color-utils`, a file that is not among the
sources, and calls it as `calculateDifficulty(gameState.level)`.  Spec §4.1
gives its formulas; they coincide with the locally defined two-argument
`calculateDifficulty` evaluated at performance rating 1 (the rating's
initial value in the revision that tracks it). -/
def difficulty (level : ℕ) : Difficulty := calculateDifficulty level 1

/-- `getCloseMatchLimit` from `color-memory-game.tsx`:
`level <= 50 ? 3 : 1`. -/
def getCloseMatchLimit (level : ℕ) : ℕ := if level ≤ 50 then 3 else 1

/-- The four feedback messages `handleColorSelect` can produce; the string
formatting of the combo value is presentation and is not modelled. -/
inductive FeedbackKind
  | perfectCombo
  | closeEnough
  | outOfCloseMatches
  | wrongColor
deriving Repr, DecidableEq

/-- The data `handleColorSelect` computes for one selection: the returned
record `{ gameOver, feedbackMessage, isExactMatch, totalPoints,
accuracyPoints, speedPoints }` plus the two updated counters
(`newCloseMatches`, `newComboMultiplier`) it writes back into state. -/
structure SelectionOutcome where
  gameOver : Bool
  feedback : FeedbackKind
  isExactMatch : Bool
  totalPoints : ℤ
  accuracyPoints : ℤ
  speedPoints : ℤ
  newCloseMatches : ℕ
  newComboMultiplier : ℚ
deriving Repr, DecidableEq

/-- The pure computation of `handleColorSelect` (lines 266–303 of
`color-memory-game.tsx`), taking the already-computed color difference:
time bonus, exact/close classification, the ten-level close-match reset,
close-match bookkeeping against `getCloseMatchLimit`, combo update, and
the three point values. -/
def evaluateSelection (level : ℕ) (closeMatches : ℕ) (comboMultiplier : ℚ)
    (difference : ℚ) (timeLeft : ℚ) : SelectionOutcome :=
  let d := difficulty level
  let timeBonus := max 0 (timeLeft / d.selectionTime)
  let isExactMatch : Bool := difference < 1
  let isCloseMatch : Bool := difference < 25 * (1 - d.similarity)
  let closeMatchLimit := getCloseMatchLimit level
  let cm0 := if level % 10 = 0 then 0 else closeMatches
  let r : ℕ × ℚ × Bool × FeedbackKind :=
    if isExactMatch then
      (cm0, min 5 (comboMultiplier + 1/2), false, .perfectCombo)
    else if isCloseMatch then
      let n := cm0 + 1
      if n > closeMatchLimit then (n, 1, true, .outOfCloseMatches)
      else (n, 1, false, .closeEnough)
    else
      (cm0, comboMultiplier, true, .wrongColor)
  let newCloseMatches := r.1
  let newComboMultiplier := r.2.1
  let gameOver := r.2.2.1
  let feedback := r.2.2.2
  let accuracyPoints := max 0 (100 - jsRound (difference * 1000))
  let speedPoints := jsRound (timeBonus * 50)
  let totalPoints := jsRound ((accuracyPoints + speedPoints : ℚ) * newComboMultiplier)
  { gameOver := gameOver
    feedback := feedback
    isExactMatch := isExactMatch
    totalPoints := totalPoints
    accuracyPoints := accuracyPoints
    speedPoints := speedPoints
    newCloseMatches := newCloseMatches
    newComboMultiplier := newComboMultiplier }

/-- The `GameState` record of the component (`highScore` is presentation
glue and not modelled). -/
structure GameState where
  targetColor : String
  options : List String
  score : ℤ
  level : ℕ
  timeLeft : ℚ
  isPlaying : Bool
  closeMatches : ℕ
deriving Repr, DecidableEq

/-- Game state together with the separately held pieces of component state
mutated during a selection: the combo multiplier, the target/options phase
flag, the loss dialog, and the selection-serialization flag. -/
structure EngineState where
  game : GameState
  comboMultiplier : ℚ
  showTarget : Bool
  showLossDialog : Bool
  isProcessingSelection : Bool
deriving Repr, DecidableEq

/-- `endGame(lost)` from `useGameLogic`: stops play, resets the timer and
colors, clears the processing flag, and opens the loss dialog when lost. -/
def endGame (lost : Bool) (s : EngineState) : EngineState :=
  { s with
    game := { s.game with isPlaying := false, timeLeft := 3, targetColor := "", options := [] }
    isProcessingSelection := false
    showLossDialog := if lost then true else s.showLossDialog }

/-- `handleGameEnd(lost)` from `useGameLogic`: `endGame(lost)` followed by
the persistence/notification glue (not modelled) and an unconditional
`setShowLossDialog(true)`. -/
def handleGameEnd (lost : Bool) (s : EngineState) : EngineState :=
  { endGame lost s with showLossDialog := true }

/-- `handleColorSelect` from `useGameLogic`.  Returns the new state
together with `.ok none` (the early `return null` when not playing),
`.ok (some outcome)` (the returned result record), or `.error ()` (the
promise rejecting because `generateColors` threw; in that case none of the
branch's state updates have been applied). -/
def handleColorSelect (gen : ℕ → Option (String × List String))
    (dist : String → String → ℚ) (s : EngineState) (selectedColor : String) :
    EngineState × Except Unit (Option SelectionOutcome) :=
  if s.game.isPlaying = false then (s, .ok none)
  else
    let outcome := evaluateSelection s.game.level s.game.closeMatches s.comboMultiplier
      (dist s.game.targetColor selectedColor) s.game.timeLeft
    if outcome.gameOver then
      let g1 := { s.game with isPlaying := false, closeMatches := outcome.newCloseMatches }
      let s2 := handleGameEnd true { s with game := g1 }
      ({ s2 with comboMultiplier := outcome.newComboMultiplier }, .ok (some outcome))
    else
      match gen (s.game.level + 1) with
      | none => (s, .error ())
      | some (target, options) =>
        let g1 := { s.game with
          level := s.game.level + 1
          score := s.game.score + outcome.totalPoints
          targetColor := target
          options := options
          timeLeft := 3
          closeMatches := outcome.newCloseMatches }
        let s1 := { s with game := g1, showTarget := true }
        ({ s1 with comboMultiplier := outcome.newComboMultiplier }, .ok (some outcome))

/-- `handleColorSelection` from `useColorSelection`: the re-entrancy guard
(`if (isProcessingSelection || !gameState.isPlaying) return`), the
processing flag being set for the duration of the call, the
`.then` handler calling `handleGameEnd(true)` on a game-over result, the
`.catch` handler calling `handleGameEnd(true)` on a thrown error, and the
`.finally` handler clearing the processing flag. -/
def handleColorSelection (gen : ℕ → Option (String × List String))
    (dist : String → String → ℚ) (s : EngineState) (selectedColor : String) : EngineState :=
  if s.isProcessingSelection = true ∨ s.game.isPlaying = false then s
  else
    let s0 := { s with isProcessingSelection := true }
    match handleColorSelect gen dist s0 selectedColor with
    | (s1, .ok r) =>
      let s2 := match r with
        | some o => if o.gameOver then handleGameEnd true s1 else s1
        | none => s1
      { s2 with isProcessingSelection := false }
    | (s1, .error _) =>
      { handleGameEnd true s1 with isProcessingSelection := false }

/-- The list of swatches the component renders while awaiting a selection:
`gameState.options.slice(0, Math.min(6, gameState.options.length))`.  A
click handler is attached only to these rendered swatches, so a color can
be selected in a round exactly when it occurs in this list. -/
def renderedOptions (options : List String) : List String :=
  options.take (min 6 options.length)

/-- A color-pool collaborator that always succeeds, used for concrete
scenarios. -/
def sampleGen : ℕ → Option (String × List String) :=
  fun _ => some ("#445566", ["#445566", "#112233", "#778899"])

/-- A color-pool collaborator that always fails, used for the
generation-failure scenario. -/
def failingGen : ℕ → Option (String × List String) := fun _ => none

/-- A color-distance collaborator for concrete scenarios: distance 0
between equal colors (spec: `colorDistance` is 0 iff identical), 50
otherwise. -/
def sampleDist : String → String → ℚ :=
  fun a b => if a = b then 0 else 50

/-- A color-distance collaborator reporting a large distance (50) for
every pair, used to drive the wrong-pick branch. -/
def farDist : String → String → ℚ := fun _ _ => 50

/-- A concrete playing state at level 1 with full selection time left,
matching the spec's scenario for the first round. -/
def c1Start : EngineState :=
  { game := { targetColor := "#112233"
              options := ["#112233", "#445566", "#778899"]
              score := 0
              level := 1
              timeLeft := 15
              isPlaying := true
              closeMatches := 0 }
    comboMultiplier := 1
    showTarget := false
    showLossDialog := false
    isProcessingSelection := false }


/-! Helper lemmas about the difficulty model and the selection evaluation,
shared by the claim theorems below. -/

lemma similarityBase_le_succ (L : ℕ) : similarityBase L ≤ similarityBase (L + 1) := by
  unfold similarityBase
  by_cases h1 : L + 1 ≤ 10
  · rw [if_pos (by omega : L ≤ 10), if_pos h1]
    push_cast
    linarith
  · by_cases h2 : L ≤ 10
    · have hL : L = 10 := by omega
      subst hL
      norm_num
    · rw [if_neg h2, if_neg h1]
      by_cases h3 : L + 1 ≤ 30
      · rw [if_pos (by omega : L ≤ 30), if_pos h3]
        push_cast
        linarith
      · by_cases h4 : L ≤ 30
        · have hL : L = 30 := by omega
          subst hL
          norm_num
        · rw [if_neg h4, if_neg h3]
          by_cases h5 : L + 1 ≤ 50
          · rw [if_pos (by omega : L ≤ 50), if_pos h5]
            push_cast
            linarith
          · by_cases h6 : L ≤ 50
            · have hL : L = 50 := by omega
              subst hL
              norm_num
            · rw [if_neg h6, if_neg h5]
              push_cast
              linarith

lemma similarityBase_mono {L M : ℕ} (h : L ≤ M) : similarityBase L ≤ similarityBase M := by
  induction h with
  | refl => exact le_rfl
  | step h ih => exact ih.trans (similarityBase_le_succ _)

lemma similarityBase_le_of_le_50 {L : ℕ} (h : L ≤ 50) : similarityBase L ≤ 96/100 := by
  calc similarityBase L ≤ similarityBase 50 := similarityBase_mono h
    _ = 96/100 := by norm_num [similarityBase]

lemma difficulty_similarity_eq (L : ℕ) :
    (difficulty L).similarity = min (99/100) (similarityBase L) := by
  simp [difficulty, calculateDifficulty]

lemma difficulty_similarity_eq_base {L : ℕ} (h : L ≤ 50) :
    (difficulty L).similarity = similarityBase L := by
  rw [difficulty_similarity_eq]
  exact min_eq_right ((similarityBase_le_of_le_50 h).trans (by norm_num))

lemma difficulty_similarity_mono {L M : ℕ} (h : L ≤ M) :
    (difficulty L).similarity ≤ (difficulty M).similarity := by
  rw [difficulty_similarity_eq, difficulty_similarity_eq]
  exact min_le_min le_rfl (similarityBase_mono h)

lemma evalSel_newCloseMatches_eq (level cm : ℕ) (combo diff tl : ℚ) :
    (evaluateSelection level cm combo diff tl).newCloseMatches =
      (if level % 10 = 0 then 0 else cm) +
      (if diff < 1 then 0
       else if diff < 25 * (1 - (difficulty level).similarity) then 1
       else 0) := by
  unfold evaluateSelection
  by_cases h1 : diff < 1
  · simp [h1]
  · by_cases h2 : diff < 25 * (1 - (difficulty level).similarity)
    · simp [h1, h2, apply_ite]
    · simp [h1, h2]

/-- Claim C1, counterexample: in the spec scenario (level 1, difference 0,
timeLeft 15, selectionTime 15, combo starting at 1) the code computes
`totalPoints = round((100 + 50) · 1.5) = 225`, not 150: `totalPoints`
is multiplied by the updated combo multiplier. -/
theorem level1_exact_scenario_total_is_225_not_150 :
    (evaluateSelection 1 0 1 0 15).isExactMatch = true ∧
    (evaluateSelection 1 0 1 0 15).accuracyPoints = 100 ∧
    (evaluateSelection 1 0 1 0 15).speedPoints = 50 ∧
    (evaluateSelection 1 0 1 0 15).newComboMultiplier = 3/2 ∧
    (evaluateSelection 1 0 1 0 15).totalPoints = 225 ∧
    (evaluateSelection 1 0 1 0 15).totalPoints ≠ 150 := by
  refine ⟨?_, ?_, ?_, ?_, ?_, ?_⟩ <;>
    norm_num [evaluateSelection, difficulty, calculateDifficulty, similarityBase,
      selectionTimeBase, getCloseMatchLimit, jsRound]

/-- Claim C1, amended: for a selection at level 1 with zero color difference,
`timeLeft = selectionTime(1) = 15`, the scoring yields `isExactMatch = true`,
`accuracyPoints = 100`, `speedPoints = 50`, the combo multiplier becomes 1.5,
`totalPoints = 225` (the sum of points times the updated multiplier), the
verdict is non-terminal, and the round advances to level 2 with the score
increased by 225. -/
theorem level1_exact_scenario_amended :
    (evaluateSelection 1 0 1 0 15).isExactMatch = true ∧
    (evaluateSelection 1 0 1 0 15).accuracyPoints = 100 ∧
    (evaluateSelection 1 0 1 0 15).speedPoints = 50 ∧
    (evaluateSelection 1 0 1 0 15).newComboMultiplier = 3/2 ∧
    (evaluateSelection 1 0 1 0 15).totalPoints = 225 ∧
    (evaluateSelection 1 0 1 0 15).gameOver = false ∧
    (handleColorSelection sampleGen sampleDist c1Start "#112233").game.level = 2 ∧
    (handleColorSelection sampleGen sampleDist c1Start "#112233").game.score = 225 ∧
    (handleColorSelection sampleGen sampleDist c1Start "#112233").comboMultiplier = 3/2 ∧
    (handleColorSelection sampleGen sampleDist c1Start "#112233").game.isPlaying = true := by
  refine ⟨?_, ?_, ?_, ?_, ?_, ?_, ?_, ?_, ?_, ?_⟩ <;>
    norm_num [handleColorSelection, handleColorSelect, evaluateSelection, difficulty,
      calculateDifficulty, similarityBase, selectionTimeBase, getCloseMatchLimit, jsRound,
      c1Start, sampleGen, sampleDist, handleGameEnd, endGame]

/-- Claim C2, counterexample: a wrong pick (difference 50 at level 1, far
beyond the close-match threshold) with the combo multiplier at 2 leaves the
multiplier at 2 — it is not reset to 1.  Only a close match resets it; the
wrong-pick branch of `handleColorSelect` never touches
`newComboMultiplier`. -/
theorem wrong_pick_keeps_combo_multiplier :
    (evaluateSelection 1 0 2 50 15).isExactMatch = false ∧
    ¬ (50 : ℚ) < 25 * (1 - (difficulty 1).similarity) ∧
    (evaluateSelection 1 0 2 50 15).gameOver = true ∧
    (evaluateSelection 1 0 2 50 15).newComboMultiplier = 2 ∧
    (evaluateSelection 1 0 2 50 15).newComboMultiplier ≠ 1 ∧
    (handleColorSelection sampleGen farDist { c1Start with comboMultiplier := 2 }
      "#445566").comboMultiplier = 2 := by
  refine ⟨?_, ?_, ?_, ?_, ?_, ?_⟩ <;>
    norm_num [handleColorSelection, handleColorSelect, evaluateSelection, difficulty,
      calculateDifficulty, similarityBase, selectionTimeBase, getCloseMatchLimit, jsRound,
      c1Start, sampleGen, farDist, handleGameEnd, endGame]

/-- Claim C2, amended: for every selection processed while playing, an exact
match sets the combo multiplier to `min(5, combo + 0.5)` and a close match
resets it to 1, but a wrong pick leaves it unchanged (the run ends on a
wrong pick regardless). -/
theorem combo_update_rule_amended (level cm : ℕ) (combo diff tl : ℚ) :
    (evaluateSelection level cm combo diff tl).newComboMultiplier =
      if diff < 1 then min 5 (combo + 1/2)
      else if diff < 25 * (1 - (difficulty level).similarity) then 1
      else combo := by
  unfold evaluateSelection
  by_cases h1 : diff < 1
  · simp [h1]
  · by_cases h2 : diff < 25 * (1 - (difficulty level).similarity)
    · simp [h1, h2, apply_ite]
    · simp [h1, h2]

/-- Claim C3: for every selection classified as a close match (not exact,
within the close-match threshold), the verdict is terminal exactly when the
incremented close-match count exceeds `getCloseMatchLimit level`, which is
3 for levels ≤ 50 and 1 above; at or under the limit the close match is
never terminal. -/
theorem close_match_terminal_iff_over_limit (level cm : ℕ) (combo diff tl : ℚ)
    (hexact : ¬ diff < 1)
    (hclose : diff < 25 * (1 - (difficulty level).similarity)) :
    ((evaluateSelection level cm combo diff tl).gameOver = true ↔
      getCloseMatchLimit level < (evaluateSelection level cm combo diff tl).newCloseMatches) ∧
    (level ≤ 50 → getCloseMatchLimit level = 3) ∧
    (50 < level → getCloseMatchLimit level = 1) := by
  refine ⟨?_, fun h => by simp [getCloseMatchLimit, h],
    fun h => by simp [getCloseMatchLimit, Nat.not_le.mpr h]⟩
  unfold evaluateSelection
  by_cases h3 : (if level % 10 = 0 then 0 else cm) + 1 > getCloseMatchLimit level
  · simp [hexact, hclose, h3]
  · simp [hexact, hclose, h3]

/-- Claim C3, witness: a close match at level 1 (difference 2, threshold
7.25) with no prior close matches is not terminal, matching the limit
equivalence. -/
theorem close_match_terminal_iff_over_limit_witness :
    (¬ (2 : ℚ) < 1) ∧ ((2 : ℚ) < 25 * (1 - (difficulty 1).similarity)) ∧
    (((evaluateSelection 1 0 1 2 15).gameOver = true ↔
      getCloseMatchLimit 1 < (evaluateSelection 1 0 1 2 15).newCloseMatches) ∧
     (1 ≤ 50 → getCloseMatchLimit 1 = 3) ∧
     (50 < 1 → getCloseMatchLimit 1 = 1)) :=
  ⟨by norm_num,
   by norm_num [difficulty, calculateDifficulty, similarityBase],
   close_match_terminal_iff_over_limit 1 0 1 2 15 (by norm_num)
     (by norm_num [difficulty, calculateDifficulty, similarityBase])⟩

/-- Claim C4: the close-match count a selection is evaluated against is 0
exactly when the round's level is divisible by 10, and the carried count
otherwise; the evaluated count is then incremented only by a close match.
So `closeMatches` is reset before evaluation precisely at levels divisible
by 10 and at no other round boundary. -/
theorem closeMatches_reset_exactly_at_multiples_of_ten (level cm : ℕ) (combo diff tl : ℚ) :
    (evaluateSelection level cm combo diff tl).newCloseMatches =
      (if level % 10 = 0 then 0 else cm) +
      (if diff < 1 then 0
       else if diff < 25 * (1 - (difficulty level).similarity) then 1
       else 0) := by
  unfold evaluateSelection
  by_cases h1 : diff < 1
  · simp [h1]
  · by_cases h2 : diff < 25 * (1 - (difficulty level).similarity)
    · simp [h1, h2, apply_ite]
    · simp [h1, h2]

/-- Claim C5, counterexample: an exact match at level 10 with two
accumulated close matches does modify `closeMatches` — the ten-level block
reset sets it to 0 before evaluation, and 0 is committed to the state. -/
theorem exact_match_at_level_ten_clears_closeMatches :
    (evaluateSelection 10 2 1 0 15).isExactMatch = true ∧
    (evaluateSelection 10 2 1 0 15).newCloseMatches = 0 ∧
    (evaluateSelection 10 2 1 0 15).newCloseMatches ≠ 2 ∧
    (handleColorSelection sampleGen sampleDist
      { c1Start with game := { c1Start.game with level := 10, closeMatches := 2 } }
      "#112233").game.closeMatches = 0 := by
  refine ⟨?_, ?_, ?_, ?_⟩ <;>
    norm_num [handleColorSelection, handleColorSelect, evaluateSelection, difficulty,
      calculateDifficulty, similarityBase, selectionTimeBase, getCloseMatchLimit, jsRound,
      c1Start, sampleGen, sampleDist, handleGameEnd, endGame]

/-- Claim C5, amended: an exact match never increments `closeMatches`; it
leaves the counter unchanged except at levels divisible by 10, where the
ten-level block reset clears it to 0.  In particular the counter never
grows on an exact match. -/
theorem exact_match_closeMatches_amended (level cm : ℕ) (combo diff tl : ℚ)
    (hexact : diff < 1) :
    (evaluateSelection level cm combo diff tl).newCloseMatches =
      (if level % 10 = 0 then 0 else cm) ∧
    (evaluateSelection level cm combo diff tl).newCloseMatches ≤ cm := by
  rw [evalSel_newCloseMatches_eq]
  constructor
  · simp [hexact]
  · by_cases h : level % 10 = 0 <;> simp [hexact, h]

/-- Claim C5, witness: an exact match at level 3 with two accumulated close
matches leaves the counter at 2. -/
theorem exact_match_closeMatches_amended_witness :
    (0 : ℚ) < 1 ∧
    ((evaluateSelection 3 2 1 0 15).newCloseMatches = (if 3 % 10 = 0 then 0 else 2) ∧
     (evaluateSelection 3 2 1 0 15).newCloseMatches ≤ 2) :=
  ⟨by norm_num, exact_match_closeMatches_amended 3 2 1 0 15 (by norm_num)⟩

/-- Claim C6: a call to the selection entry point while a prior selection is
still processing, or while not playing, is a silent no-op — the state
(hence score, level and combo multiplier) is returned unchanged. -/
theorem select_reentrant_or_idle_noop
    (gen : ℕ → Option (String × List String)) (dist : String → String → ℚ)
    (s : EngineState) (selectedColor : String)
    (h : s.isProcessingSelection = true ∨ s.game.isPlaying = false) :
    handleColorSelection gen dist s selectedColor = s := by
  unfold handleColorSelection
  rw [if_pos h]

/-- Claim C6, witness: selecting while the processing flag is set leaves the
concrete level-1 state untouched. -/
theorem select_reentrant_or_idle_noop_witness :
    (({ c1Start with isProcessingSelection := true } : EngineState).isProcessingSelection = true ∨
      ({ c1Start with isProcessingSelection := true } : EngineState).game.isPlaying = false) ∧
    handleColorSelection sampleGen sampleDist
      { c1Start with isProcessingSelection := true } "#112233" =
      { c1Start with isProcessingSelection := true } :=
  ⟨Or.inl rfl,
   select_reentrant_or_idle_noop sampleGen sampleDist
     { c1Start with isProcessingSelection := true } "#112233" (Or.inl rfl)⟩

/-- Claim C7, counterexample: at level 111 the band formula
`0.96 + 0.0005·(L − 50)` gives 0.9905, but the code caps the similarity
threshold at 0.99, so the threshold does not equal the uncapped band
formula there. -/
theorem similarity_cap_bites_at_level_111 :
    (difficulty 111).similarity = 99/100 ∧
    96/100 + ((111 : ℚ) - 50) * (5/10000) = 9905/10000 ∧
    (difficulty 111).similarity ≠ 96/100 + ((111 : ℚ) - 50) * (5/10000) := by
  refine ⟨?_, by norm_num, ?_⟩ <;>
    norm_num [difficulty, calculateDifficulty, similarityBase]

/-- Claim C7, amended: for every level L ≥ 1 the similarity threshold equals
the four-band piecewise-linear ramp with the fourth band capped at 0.99
(`min(0.99, 0.96 + 0.0005·(L − 50))` for L ≥ 51), is monotonically
non-decreasing in L, and never exceeds 0.99. -/
theorem similarity_ramp_amended (L : ℕ) (hL : 1 ≤ L) :
    (L ≤ 10 → (difficulty L).similarity = 7/10 + (L : ℚ) * (1/100)) ∧
    (11 ≤ L → L ≤ 30 → (difficulty L).similarity = 8/10 + ((L : ℚ) - 10) * (5/1000)) ∧
    (31 ≤ L → L ≤ 50 → (difficulty L).similarity = 9/10 + ((L : ℚ) - 30) * (3/1000)) ∧
    (51 ≤ L → (difficulty L).similarity
      = min (99/100) (96/100 + ((L : ℚ) - 50) * (5/10000))) ∧
    (∀ M : ℕ, L ≤ M → (difficulty L).similarity ≤ (difficulty M).similarity) ∧
    (difficulty L).similarity ≤ 99/100 := by
  refine ⟨?_, ?_, ?_, ?_, fun M h => difficulty_similarity_mono h, ?_⟩
  · intro h
    rw [difficulty_similarity_eq_base (by omega)]
    unfold similarityBase
    rw [if_pos h]
  · intro h1 h2
    rw [difficulty_similarity_eq_base (by omega)]
    unfold similarityBase
    rw [if_neg (by omega), if_pos h2]
  · intro h1 h2
    rw [difficulty_similarity_eq_base h2]
    unfold similarityBase
    rw [if_neg (by omega), if_neg (by omega), if_pos h2]
  · intro h
    rw [difficulty_similarity_eq]
    unfold similarityBase
    rw [if_neg (by omega), if_neg (by omega), if_neg (by omega)]
  · rw [difficulty_similarity_eq]
    exact min_le_left _ _

/-- Claim C7, witness: the amended ramp statement instantiated at level 111,
where the cap is active. -/
theorem similarity_ramp_amended_witness :
    1 ≤ 111 ∧
    ((111 ≤ 10 → (difficulty 111).similarity = 7/10 + (111 : ℚ) * (1/100)) ∧
    (11 ≤ 111 → 111 ≤ 30 → (difficulty 111).similarity = 8/10 + ((111 : ℚ) - 10) * (5/1000)) ∧
    (31 ≤ 111 → 111 ≤ 50 → (difficulty 111).similarity = 9/10 + ((111 : ℚ) - 30) * (3/1000)) ∧
    (51 ≤ 111 → (difficulty 111).similarity
      = min (99/100) (96/100 + ((111 : ℚ) - 50) * (5/10000))) ∧
    (∀ M : ℕ, 111 ≤ M → (difficulty 111).similarity ≤ (difficulty M).similarity) ∧
    (difficulty 111).similarity ≤ 99/100) :=
  ⟨by norm_num, similarity_ramp_amended 111 (by norm_num)⟩

/-- Claim C8: for every level L ≥ 1 the option count is
`min(10, 3 + ⌊L / 10⌋)`, lies in [3, 10], and is non-decreasing in L. -/
theorem optionCount_formula_bounds_mono (L : ℕ) (_hL : 1 ≤ L) :
    (difficulty L).colorCount = min 10 (3 + L / 10) ∧
    3 ≤ (difficulty L).colorCount ∧ (difficulty L).colorCount ≤ 10 ∧
    (∀ M : ℕ, L ≤ M → (difficulty L).colorCount ≤ (difficulty M).colorCount) := by
  refine ⟨rfl, ?_, ?_, ?_⟩
  · exact le_min (by norm_num) (Nat.le_add_right 3 _)
  · exact min_le_left _ _
  · intro M h
    exact min_le_min le_rfl (Nat.add_le_add_left (Nat.div_le_div_right h) 3)

/-- Claim C8, witness: the option-count statement instantiated at level 7. -/
theorem optionCount_formula_bounds_mono_witness :
    1 ≤ 7 ∧
    ((difficulty 7).colorCount = min 10 (3 + 7 / 10) ∧
    3 ≤ (difficulty 7).colorCount ∧ (difficulty 7).colorCount ≤ 10 ∧
    (∀ M : ℕ, 7 ≤ M → (difficulty 7).colorCount ≤ (difficulty M).colorCount)) :=
  ⟨by norm_num, optionCount_formula_bounds_mono 7 (by norm_num)⟩

/-- Claim C9: when the color-pool collaborator fails to produce the next
round's colors (and in particular whenever it would have been consulted),
a selection processed while playing ends the run exactly as a loss: the
resulting state is not playing, shows the loss dialog, and has empty
options — it is never left playing in the target phase with empty
options. -/
theorem generation_failure_forces_loss
    (gen : ℕ → Option (String × List String)) (dist : String → String → ℚ)
    (s : EngineState) (selectedColor : String)
    (hp : s.isProcessingSelection = false) (hpl : s.game.isPlaying = true)
    (hgen : gen (s.game.level + 1) = none) :
    (handleColorSelection gen dist s selectedColor).game.isPlaying = false ∧
    (handleColorSelection gen dist s selectedColor).showLossDialog = true ∧
    (handleColorSelection gen dist s selectedColor).game.options = [] := by
  unfold handleColorSelection
  rw [if_neg (by simp [hp, hpl])]
  unfold handleColorSelect
  simp only [hpl]
  by_cases hgo : (evaluateSelection s.game.level s.game.closeMatches s.comboMultiplier
      (dist s.game.targetColor selectedColor) s.game.timeLeft).gameOver = true
  · simp [hgo, handleGameEnd, endGame]
  · simp [hgo, hgen, handleGameEnd, endGame]

/-- Claim C9, witness: with a failing generator, a selection from the
concrete level-1 playing state ends in a lost, not-playing state with empty
options. -/
theorem generation_failure_forces_loss_witness :
    (c1Start.isProcessingSelection = false ∧ c1Start.game.isPlaying = true ∧
      failingGen (c1Start.game.level + 1) = none) ∧
    ((handleColorSelection failingGen sampleDist c1Start "#112233").game.isPlaying = false ∧
     (handleColorSelection failingGen sampleDist c1Start "#112233").showLossDialog = true ∧
     (handleColorSelection failingGen sampleDist c1Start "#112233").game.options = []) :=
  ⟨⟨rfl, rfl, rfl⟩,
   generation_failure_forces_loss failingGen sampleDist c1Start "#112233" rfl rfl rfl⟩

/-- Claim C10: the component renders exactly the first
`min(6, options.length)` options as selectable swatches; when 7 or more
options exist (option counts 7–10), only 6 are rendered, so the options
beyond the sixth are never selectable. -/
theorem rendered_options_first_six (opts : List String) :
    renderedOptions opts = opts.take 6 ∧
    (renderedOptions opts).length = min 6 opts.length ∧
    (∀ c, c ∈ renderedOptions opts → c ∈ opts.take 6) ∧
    (7 ≤ opts.length →
      (renderedOptions opts).length = 6 ∧ (renderedOptions opts).length < opts.length) := by
  have h1 : renderedOptions opts = opts.take 6 := by
    unfold renderedOptions
    rcases le_total 6 opts.length with h | h
    · rw [min_eq_left h]
    · rw [min_eq_right h, List.take_length]
      exact (List.take_of_length_le h).symm
  refine ⟨h1, ?_, ?_, ?_⟩
  · rw [h1, List.length_take]
  · intro c hc
    rwa [h1] at hc
  · intro h
    rw [h1, List.length_take]
    omega

/-- Claim C10, witness: with eight options only six swatches are
rendered. -/
theorem rendered_options_first_six_witness :
    7 ≤ (["a", "b", "c", "d", "e", "f", "g", "h"] : List String).length ∧
    (renderedOptions ["a", "b", "c", "d", "e", "f", "g", "h"]).length = 6 :=
  ⟨by decide,
   ((rendered_options_first_six ["a", "b", "c", "d", "e", "f", "g", "h"]).2.2.2 (by decide)).1⟩

end ChromaRecall
